import Mathlib

/-!
Shallow embedding of the llm-spell-correction extension
(`src/llm-spell-correction.tsx`, response shapes from `types.ts`).

JS runtime values that the program inspects are modelled by `JValue`
(parsed JSON bodies), `JsNum` (a JS number, `nan` included), and
`Option JValue` for possibly-`undefined` values.  Thrown JS errors are
`JsErr`: `error` for `new Error(msg)`, `typeError` for runtime
TypeErrors such as reading a property of `undefined`.  The HTTP layer
is a function `HttpRequest → HttpResponse` supplied by the
environment; `fetch` is modelled as applying it and recording the
request in an effect trace.
-/

namespace LlmSpellCorrection

/-- A parsed JSON value, as `response.json()` yields it. -/
inductive JValue where
  | null
  | bool (b : Bool)
  | num (q : ℚ)
  | str (s : String)
  | arr (elems : List JValue)
  | obj (fields : List (String × JValue))

/-- A JS number: a finite value (JS floats are modelled as rationals) or `NaN`. -/
inductive JsNum where
  | num (q : ℚ)
  | nan
  deriving Repr, DecidableEq

/-- `JSON.stringify` turns `NaN` into `null`; finite numbers stay numbers. -/
def JsNum.toJValue : JsNum → JValue
  | .num q => .num q
  | .nan => .null

/-- A thrown JS error: `new Error(msg)` or a runtime TypeError. -/
inductive JsErr where
  | error (message : String)
  | typeError (message : String)
  deriving Repr, DecidableEq

/-- `error.message` (TypeErrors are `Error`s too, so both carry a message). -/
def JsErr.message : JsErr → String
  | .error m => m
  | .typeError m => m

/-- Numeric value of a digit string (most significant first). -/
def digitsVal (cs : List Char) : ℕ :=
  cs.foldl (fun a c => 10 * a + (c.toNat - Char.toNat '0')) 0

/-- Leading-sign split: `-` negates, `+` is consumed, anything else is left. -/
def splitSign : List Char → Bool × List Char
  | '-' :: rest => (true, rest)
  | '+' :: rest => (false, rest)
  | cs => (false, cs)

/-- `parseFloat(s)`: longest decimal-literal prefix after leading whitespace;
`NaN` when no digits are found.  (`Infinity` and hex forms are not modelled;
no claim depends on them.) -/
def parseFloatJs (s : String) : JsNum :=
  let cs := s.data.dropWhile Char.isWhitespace
  let (neg, cs1) := splitSign cs
  let intPart := cs1.takeWhile Char.isDigit
  let cs2 := cs1.dropWhile Char.isDigit
  let (fracPart, cs3) :=
    match cs2 with
    | '.' :: rest => (rest.takeWhile Char.isDigit, rest.dropWhile Char.isDigit)
    | _ => (([] : List Char), cs2)
  if intPart.isEmpty ∧ fracPart.isEmpty then .nan
  else
    let fracLen := fracPart.length
    let mantissaNum : ℕ := digitsVal intPart * 10 ^ fracLen + digitsVal fracPart
    let signed : ℤ := if neg then -(Int.ofNat mantissaNum) else Int.ofNat mantissaNum
    let ex : Bool × ℕ :=
      match cs3 with
      | c :: rest =>
        if c = 'e' ∨ c = 'E' then
          let (en, ds) := splitSign rest
          let digs := ds.takeWhile Char.isDigit
          if digs.isEmpty then (false, 0) else (en, digitsVal digs)
        else (false, 0)
      | [] => (false, 0)
    if ex.1 then .num (mkRat signed (10 ^ fracLen * 10 ^ ex.2))
    else .num (mkRat (signed * Int.ofNat (10 ^ ex.2)) (10 ^ fracLen))

/-- `parseInt(s, 10)`: leading decimal-digit prefix after whitespace and an
optional sign; `NaN` when no digits are found. -/
def parseIntJs (s : String) : JsNum :=
  let cs := s.data.dropWhile Char.isWhitespace
  let (neg, cs1) := splitSign cs
  let digs := cs1.takeWhile Char.isDigit
  if digs.isEmpty then .nan
  else .num (mkRat (if neg then -(Int.ofNat (digitsVal digs)) else Int.ofNat (digitsVal digs)) 1)

/-- JS falsiness of an optional string: `undefined` and `""` are falsy. -/
def jsFalsy : Option String → Bool
  | none => true
  | some s => s = ""

/-- `v || d` on an optional string: the value when truthy, else the default. -/
def jsOr (v : Option String) (d : String) : String :=
  match v with
  | some s => if s = "" then d else s
  | none => d

/-- First binding of a key in a JS object literal's field list. -/
def lookupField : List (String × JValue) → String → Option JValue
  | [], _ => none
  | (k, v) :: rest, key => if k = key then some v else lookupField rest key

/-- JS property read `base.k`: a TypeError on `undefined` or `null`,
the field (or `undefined`) on an object, `undefined` on any other
value (prototype members are not modelled). -/
def jsGetField (base : Option JValue) (k : String) : Except JsErr (Option JValue) :=
  match base with
  | none => .error (.typeError ("Cannot read properties of undefined (reading " ++ k ++ ")"))
  | some .null => .error (.typeError ("Cannot read properties of null (reading " ++ k ++ ")"))
  | some (.obj fs) => .ok (lookupField fs k)
  | some _ => .ok none

/-- JS index read `base[i]`: a TypeError on `undefined` or `null`, the
element (or `undefined`) on an array, the string-keyed field on an
object, `undefined` otherwise. -/
def jsIndex (base : Option JValue) (i : ℕ) : Except JsErr (Option JValue) :=
  match base with
  | none => .error (.typeError ("Cannot read properties of undefined (reading " ++ toString i ++ ")"))
  | some .null => .error (.typeError ("Cannot read properties of null (reading " ++ toString i ++ ")"))
  | some (.arr xs) => .ok (xs.get? i)
  | some (.obj fs) => .ok (lookupField fs (toString i))
  | some _ => .ok none

/-- Optional chaining `base?.k`: `undefined` and `null` short-circuit to
`undefined`; otherwise a plain property read. -/
def jsOptField (base : Except JsErr (Option JValue)) (k : String) : Except JsErr (Option JValue) :=
  match base with
  | .error e => .error e
  | .ok none => .ok none
  | .ok (some .null) => .ok none
  | .ok (some v) => jsGetField (some v) k

/-- A call `v.trim()`: trims a string, TypeErrors on anything else
(`undefined`/`null` have no properties; other primitives and objects
have no `trim` function). -/
def jsTrimCall (v : Option JValue) : Except JsErr String :=
  match v with
  | none => .error (.typeError "Cannot read properties of undefined (reading trim)")
  | some .null => .error (.typeError "Cannot read properties of null (reading trim)")
  | some (.str s) => .ok s.trim
  | some _ => .error (.typeError "trim is not a function")

/-- Decimal rendering of a rational, for JS number-to-string conversion.
Integers render exactly; fractions by long division, `fuel` digits at
most (JS binary-float rounding is not modelled; no claim depends on it). -/
def fracDigits : ℕ → ℕ → ℕ → List Char
  | 0, _, _ => []
  | _, 0, _ => []
  | fuel + 1, r, d =>
    let r10 := r * 10
    Char.ofNat (Char.toNat '0' + r10 / d) :: fracDigits fuel (r10 % d) d

/-- String conversion of a finite JS number. -/
def jsNumToString (q : ℚ) : String :=
  let n := q.num.natAbs
  let d := q.den
  let intPart := toString (n / d)
  let rest := if n % d = 0 then "" else "." ++ String.mk (fracDigits 20 (n % d) d)
  (if q.num < 0 then "-" else "") ++ intPart ++ rest

mutual

/-- JS string conversion of a value, as a template literal performs it. -/
def jsTemplateVal : JValue → String
  | .null => "null"
  | .bool b => if b then "true" else "false"
  | .num q => jsNumToString q
  | .str s => s
  | .arr xs => String.intercalate "," (jsArrParts xs)
  | .obj _ => "[object Object]"

/-- `Array.prototype.toString` parts: `null` renders empty inside an array. -/
def jsArrParts : List JValue → List String
  | [] => []
  | .null :: rest => "" :: jsArrParts rest
  | v :: rest => jsTemplateVal v :: jsArrParts rest

end

/-- Template interpolation of a possibly-`undefined` value. -/
def jsTemplateOpt : Option JValue → String
  | none => "undefined"
  | some v => jsTemplateVal v

/-- JSON string escaping (quote, backslash and the common control
characters; `\uXXXX` forms for other control characters are not
modelled, no claim depends on them). -/
def escapeJsonChar (c : Char) : String :=
  if c = '\\' then "\\\\"
  else if c = '"' then "\\\""
  else if c = '\n' then "\\n"
  else if c = '\r' then "\\r"
  else if c = '\t' then "\\t"
  else String.singleton c

/-- Escape a string for JSON serialization. -/
def escapeJson (s : String) : String := String.join (s.data.map escapeJsonChar)

mutual

/-- `JSON.stringify` (no indentation, keys in literal order). -/
def jsonStringify : JValue → String
  | .null => "null"
  | .bool b => if b then "true" else "false"
  | .num q => jsNumToString q
  | .str s => "\"" ++ escapeJson s ++ "\""
  | .arr xs => "[" ++ String.intercalate "," (jsonStringifyList xs) ++ "]"
  | .obj fs => "\x7b" ++ String.intercalate "," (jsonStringifyFields fs) ++ "\x7d"

/-- Serialized elements of a JSON array. -/
def jsonStringifyList : List JValue → List String
  | [] => []
  | v :: rest => jsonStringify v :: jsonStringifyList rest

/-- Serialized `"key":value` pairs of a JSON object. -/
def jsonStringifyFields : List (String × JValue) → List String
  | [] => []
  | (k, v) :: rest => ("\"" ++ escapeJson k ++ "\":" ++ jsonStringify v) :: jsonStringifyFields rest

end

/-! ### The HTTP layer and the effect trace -/

/-- An outgoing request as `fetch(url, options)` assembles it; the JSON
body is kept structured (`JSON.stringify` serializes it on the wire). -/
structure HttpRequest where
  url : String
  method : String
  headers : List (String × String)
  body : JValue

/-- A response: its success flag (`response.ok`) and its parsed JSON body
(`await response.json()`). -/
structure HttpResponse where
  ok : Bool
  body : JValue

/-- Observable effects of one run: transient HUD notices, outgoing HTTP
requests, and the clipboard write-and-paste. -/
inductive Effect where
  | hud (message : String)
  | httpCall (req : HttpRequest)
  | clipboardPaste (text : String)

/-- A stubbed HTTP layer returning one fixed response to every request. -/
def stubHttp (ok : Bool) (body : JValue) : HttpRequest → HttpResponse :=
  fun _ => { ok := ok, body := body }

/-! ### Provider adapters (`llm-spell-correction.tsx`, lines 21-130) -/

/-- The `API_URLS` record (lines 21-25). -/
structure ApiUrls where
  openai : String
  llama : String
  claude : String

/-- Fixed per-provider endpoints; the adapters use these directly. -/
def API_URLS : ApiUrls :=
  { openai := "https://api.openai.com/v1/chat/completions"
    llama := "http://localhost:11434/api/generate"
    claude := "https://api.anthropic.com/v1/messages" }

/-- The request `correctWithOpenAI` sends (lines 35-50): bearer-token
header, system+user message pair, temperature and `max_tokens`. -/
def openaiRequest (inputText apiKey model systemPrompt : String)
    (temperature maxTokens : JsNum) : HttpRequest :=
  { url := API_URLS.openai
    method := "POST"
    headers := [("Authorization", "Bearer " ++ apiKey), ("Content-Type", "application/json")]
    body := .obj
      [("model", .str model),
       ("messages", .arr
         [.obj [("role", .str "system"), ("content", .str systemPrompt)],
          .obj [("role", .str "user"), ("content", .str inputText)]]),
       ("temperature", temperature.toJValue),
       ("max_tokens", maxTokens.toJValue)] }

/-- `correctWithOpenAI` (lines 27-54): sends the request, then either
throws `` `OpenAI API error: ${data.error?.message}` `` on a non-ok
status or returns `data.choices[0].message.content.trim()`.  The first
component of the result is the effect trace (the one request sent). -/
def correctWithOpenAI (inputText apiKey model systemPrompt : String)
    (temperature maxTokens : JsNum) (http : HttpRequest → HttpResponse) :
    List Effect × Except JsErr String :=
  let req := openaiRequest inputText apiKey model systemPrompt temperature maxTokens
  let resp := http req
  let data := resp.body
  let result : Except JsErr String :=
    if !resp.ok then
      match jsOptField (jsGetField (some data) "error") "message" with
      | .error e => .error e
      | .ok m => .error (.error ("OpenAI API error: " ++ jsTemplateOpt m))
    else
      match jsGetField (some data) "choices" with
      | .error e => .error e
      | .ok choices =>
        match jsIndex choices 0 with
        | .error e => .error e
        | .ok c0 =>
          match jsGetField c0 "message" with
          | .error e => .error e
          | .ok msg =>
            match jsGetField msg "content" with
            | .error e => .error e
            | .ok content => jsTrimCall content
  ([.httpCall req], result)

/-- The request `correctWithClaude` sends (lines 64-77): `x-api-key` and
`anthropic-version` headers, top-level `system` field, one user message. -/
def claudeRequest (inputText apiKey model systemPrompt : String)
    (temperature maxTokens : JsNum) : HttpRequest :=
  { url := API_URLS.claude
    method := "POST"
    headers := [("x-api-key", apiKey), ("Content-Type", "application/json"),
                ("anthropic-version", "2023-06-01")]
    body := .obj
      [("model", .str model),
       ("system", .str systemPrompt),
       ("messages", .arr [.obj [("role", .str "user"), ("content", .str inputText)]]),
       ("temperature", temperature.toJValue),
       ("max_tokens", maxTokens.toJValue)] }

/-- `correctWithClaude` (lines 56-83): throws
`` `Claude API error: ${data.error?.message}` `` on a non-ok status,
otherwise returns `data.content[0].text.trim()`. -/
def correctWithClaude (inputText apiKey model systemPrompt : String)
    (temperature maxTokens : JsNum) (http : HttpRequest → HttpResponse) :
    List Effect × Except JsErr String :=
  let req := claudeRequest inputText apiKey model systemPrompt temperature maxTokens
  let resp := http req
  let data := resp.body
  let result : Except JsErr String :=
    if !resp.ok then
      match jsOptField (jsGetField (some data) "error") "message" with
      | .error e => .error e
      | .ok m => .error (.error ("Claude API error: " ++ jsTemplateOpt m))
    else
      match jsGetField (some data) "content" with
      | .error e => .error e
      | .ok content =>
        match jsIndex content 0 with
        | .error e => .error e
        | .ok c0 =>
          match jsGetField c0 "text" with
          | .error e => .error e
          | .ok t => jsTrimCall t
  ([.httpCall req], result)

/-- The request `correctWithLlama` sends (lines 92-104): no auth header,
the prompt is the system prompt, a blank line, then the input text;
generation options are nested under `options`. -/
def llamaRequest (inputText model systemPrompt : String)
    (temperature maxTokens : JsNum) : HttpRequest :=
  { url := API_URLS.llama
    method := "POST"
    headers := [("Content-Type", "application/json")]
    body := .obj
      [("model", .str model),
       ("prompt", .str (systemPrompt ++ "\n\n" ++ inputText)),
       ("stream", .bool false),
       ("options", .obj
         [("temperature", temperature.toJValue),
          ("num_predict", maxTokens.toJValue)])] }

/-- `correctWithLlama` (lines 85-109): throws
`` `LLaMA API error: ${JSON.stringify(data)}` `` on a non-ok status,
otherwise returns `data.response.trim()`. -/
def correctWithLlama (inputText model systemPrompt : String)
    (temperature maxTokens : JsNum) (http : HttpRequest → HttpResponse) :
    List Effect × Except JsErr String :=
  let req := llamaRequest inputText model systemPrompt temperature maxTokens
  let resp := http req
  let data := resp.body
  let result : Except JsErr String :=
    if !resp.ok then
      .error (.error ("LLaMA API error: " ++ jsonStringify data))
    else
      match jsGetField (some data) "response" with
      | .error e => .error e
      | .ok r => jsTrimCall r
  ([.httpCall req], result)

/-- `correctText` (lines 111-130): dispatch on the provider string; any
value outside the three enumerated providers throws without building a
request (the trace stays empty). -/
def correctText (inputText apiKey model apiProvider systemPrompt : String)
    (temperature maxTokens : JsNum) (http : HttpRequest → HttpResponse) :
    List Effect × Except JsErr String :=
  if apiProvider = "openai" then
    correctWithOpenAI inputText apiKey model systemPrompt temperature maxTokens http
  else if apiProvider = "claude" then
    correctWithClaude inputText apiKey model systemPrompt temperature maxTokens http
  else if apiProvider = "llama" then
    correctWithLlama inputText model systemPrompt temperature maxTokens http
  else
    ([], .error (.error ("Unsupported API provider: " ++ apiProvider)))

/-! ### Preferences and configuration resolution (lines 5-17, 132-167) -/

/-- The `Preferences` interface (lines 5-17).  `apiProvider` is declared
required; all other fields are optional strings. -/
structure Preferences where
  apiToken : Option String
  apiProvider : String
  openaiModel : Option String
  openaiCustomModel : Option String
  claudeModel : Option String
  claudeCustomModel : Option String
  llamaModel : Option String
  llamaCustomModel : Option String
  systemPrompt : Option String
  temperature : Option String
  maxTokens : Option String
  deriving Repr, DecidableEq

/-- The host's flat key-value preference store, as the settings UI fills it. -/
abbrev Store := List (String × String)

/-- First value bound to a key in the store. -/
def getPref (s : Store) (k : String) : Option String :=
  match s with
  | [] => none
  | (k2, v) :: rest => if k2 = k then some v else getPref rest k

/-- `getPreferenceValues<Preferences>()`: the fields the interface
declares, read from the store; keys the interface does not declare are
not read.  A missing required `apiProvider` surfaces as `undefined`,
modelled as the string it interpolates to. -/
def getPreferenceValues (s : Store) : Preferences :=
  { apiToken := getPref s "apiToken"
    apiProvider := (getPref s "apiProvider").getD "undefined"
    openaiModel := getPref s "openaiModel"
    openaiCustomModel := getPref s "openaiCustomModel"
    claudeModel := getPref s "claudeModel"
    claudeCustomModel := getPref s "claudeCustomModel"
    llamaModel := getPref s "llamaModel"
    llamaCustomModel := getPref s "llamaCustomModel"
    systemPrompt := getPref s "systemPrompt"
    temperature := getPref s "temperature"
    maxTokens := getPref s "maxTokens" }

/-- The model-resolution IIFE (lines 144-161): the per-provider model
preference, with the sentinel `custom` redirecting to the custom-model
preference, and a hard-coded default when the chosen value is falsy. -/
def resolveModel (p : Preferences) : Except JsErr String :=
  if p.apiProvider = "openai" then
    .ok (if p.openaiModel = some "custom" then jsOr p.openaiCustomModel "gpt-3.5-turbo"
         else jsOr p.openaiModel "gpt-3.5-turbo")
  else if p.apiProvider = "claude" then
    .ok (if p.claudeModel = some "custom" then jsOr p.claudeCustomModel "claude-3-sonnet-20240229"
         else jsOr p.claudeModel "claude-3-sonnet-20240229")
  else if p.apiProvider = "llama" then
    .ok (if p.llamaModel = some "custom" then jsOr p.llamaCustomModel "llama2"
         else jsOr p.llamaModel "llama2")
  else
    .error (.error ("Unsupported provider: " ++ p.apiProvider))

/-- The built-in system prompt (line 165). -/
def defaultSystemPrompt : String :=
  "You are an AI assistant responsible for correcting spelling errors in a text selection while preserving structured elements such as code snippets, constants, bracketed text ([]), inline code ( ), special characters, and numerical values.\n\nFollow these steps:\nCarefully analyze the provided text.\nIdentify and correct only misspelled words in natural language text.\nPreserve code, constants, bracketed text, inline code, symbols, and numerical values exactly as they appear.\nReview the corrected text to ensure that all spelling errors are fixed without modifying protected elements.\nOutput Instructions:\n- Only output the corrected text in plain text format.\n- Do not modify or remove any bracketed text ([]), code snippets, inline code, constants, symbols, or numbers.\n- Do not reformat the text or add any additional content.\n- Ensure compliance with ALL these instructions."

/-- A fully resolved configuration, as `main` assembles it before
reading the selection. -/
structure Config where
  apiProvider : String
  apiKey : Option String
  model : String
  systemPrompt : String
  temperature : JsNum
  maxTokens : JsNum
  deriving Repr, DecidableEq

/-- Lines 134-167 of `main`: the API-token check for `openai`/`claude`
(JS falsiness: missing or empty key throws), model resolution, prompt
fallback, and parameter parsing.  All of this precedes `getSelectedText`
and any network activity. -/
def resolveConfig (p : Preferences) : Except JsErr Config :=
  if (p.apiProvider = "openai" ∨ p.apiProvider = "claude") ∧ jsFalsy p.apiToken = true then
    .error (.error ("API token is required for " ++ p.apiProvider))
  else
    match resolveModel p with
    | .error e => .error e
    | .ok model =>
      .ok { apiProvider := p.apiProvider
            apiKey := p.apiToken
            model := model
            systemPrompt := jsOr p.systemPrompt defaultSystemPrompt
            temperature := parseFloatJs (jsOr p.temperature "0")
            maxTokens := parseIntJs (jsOr p.maxTokens "1024") }

/-! ### The orchestrator (`main`, lines 132-186) -/

/-- The environment the host supplies to one run: the preference store,
the result of `getSelectedText()`, and the HTTP transport. -/
structure HostEnv where
  store : Store
  selection : Except JsErr String
  http : HttpRequest → HttpResponse

/-- The in-progress notice (line 170). -/
def workingNotice : String := "🔄 Correcting text..."

/-- The success notice (line 182). -/
def successNotice : String := "✅ Text corrected!"

/-- `main` (lines 132-186) as the list of effects one run performs.
The try/catch converts every thrown error into one final
`` `Error: ${message}` `` HUD notice; the clipboard paste and the
success notice happen only after `correctText` returns successfully. -/
def main (env : HostEnv) : List Effect :=
  match resolveConfig (getPreferenceValues env.store) with
  | .error e => [.hud ("Error: " ++ e.message)]
  | .ok cfg =>
    match env.selection with
    | .error e => [.hud ("Error: " ++ e.message)]
    | .ok selectedText =>
      match correctText selectedText (jsOr cfg.apiKey "") cfg.model cfg.apiProvider
        cfg.systemPrompt cfg.temperature cfg.maxTokens env.http with
      | (effs, .error e) => .hud workingNotice :: effs ++ [.hud ("Error: " ++ e.message)]
      | (effs, .ok correctedText) =>
        .hud workingNotice :: effs ++ [.clipboardPaste correctedText, .hud successNotice]

/-! ### Fixtures for the verification -/

/-- A valid OpenAI success body: `{choices:[{message:{content}}]}`. -/
def openaiSuccessBody (s : String) : JValue :=
  .obj [("choices", .arr [.obj [("message", .obj [("content", .str s)])]])]

/-- A valid Claude success body: `{content:[{text}]}`. -/
def claudeSuccessBody (s : String) : JValue :=
  .obj [("content", .arr [.obj [("text", .str s)]])]

/-- A valid LLaMA success body: `{response}`. -/
def llamaSuccessBody (s : String) : JValue :=
  .obj [("response", .str s)]

/-- What `data.error?.message` evaluates to on a non-`null` parsed body. -/
def errFieldMessage : JValue → Option JValue
  | .obj fs =>
    match lookupField fs "error" with
    | some (.obj gs) => lookupField gs "message"
    | _ => none
  | _ => none

/-- On a non-`null` body, `data.error?.message` evaluates without throwing
to `errFieldMessage`. -/
theorem jsOptField_err (body : JValue) (h : body ≠ JValue.null) :
    jsOptField (jsGetField (some body) "error") "message" = .ok (errFieldMessage body) := by
  cases body with
  | null => exact absurd rfl h
  | bool b => rfl
  | num q => rfl
  | str s => rfl
  | arr xs => rfl
  | obj fs =>
    simp only [jsGetField, jsOptField, errFieldMessage]
    cases hf : lookupField fs "error" with
    | none => rfl
    | some v => cases v <;> rfl

/-! ### C1: success path of the three adapters -/

/-- C1: for every provider, when the HTTP layer returns a success status
with a valid success body, `correct()` returns exactly the text extracted
from the documented success field (`choices[0].message.content` for
OpenAI, `content[0].text` for Claude, `response` for LLaMA) with leading
and trailing whitespace removed. -/
theorem adapter_success_returns_trimmed_payload
    (inputText apiKey model systemPrompt s : String) (temperature maxTokens : JsNum) :
    (correctWithOpenAI inputText apiKey model systemPrompt temperature maxTokens
        (stubHttp true (openaiSuccessBody s))).2 = .ok s.trim
  ∧ (correctWithClaude inputText apiKey model systemPrompt temperature maxTokens
        (stubHttp true (claudeSuccessBody s))).2 = .ok s.trim
  ∧ (correctWithLlama inputText model systemPrompt temperature maxTokens
        (stubHttp true (llamaSuccessBody s))).2 = .ok s.trim :=
  ⟨rfl, rfl, rfl⟩

/-! ### C2: error path of the three adapters -/

/-- C2 counterexample: on a non-success status with error body
`{error:{message:"boom"}}`, the OpenAI adapter's error message is
`OpenAI API error: boom`, which is not equal to the body's error field
`boom` — the claim that the message equals the documented error field
fails on the prefixed message the code builds. -/
theorem provider_error_message_is_prefixed_not_bare :
    (correctWithOpenAI "teh text" "key" "gpt-3.5-turbo" "fix spelling" (.num 0) (.num 1024)
        (stubHttp false (.obj [("error", .obj [("message", .str "boom")])]))).2
      = .error (.error "OpenAI API error: boom")
  ∧ "OpenAI API error: boom" ≠ "boom" :=
  ⟨rfl, by decide⟩

/-- C2 amended: on every non-success status the adapters throw an error
whose message is the provider-specific prefix (`OpenAI API error: `,
`Claude API error: `, `LLaMA API error: `) followed by the
template-interpolated `error?.message` field (OpenAI/Claude) or the
re-serialized response body (LLaMA). -/
theorem adapter_error_messages_prefixed
    (inputText apiKey model systemPrompt : String) (temperature maxTokens : JsNum)
    (body : JValue) (h : body ≠ JValue.null) :
    (correctWithOpenAI inputText apiKey model systemPrompt temperature maxTokens
        (stubHttp false body)).2
      = .error (.error ("OpenAI API error: " ++ jsTemplateOpt (errFieldMessage body)))
  ∧ (correctWithClaude inputText apiKey model systemPrompt temperature maxTokens
        (stubHttp false body)).2
      = .error (.error ("Claude API error: " ++ jsTemplateOpt (errFieldMessage body)))
  ∧ (correctWithLlama inputText model systemPrompt temperature maxTokens
        (stubHttp false body)).2
      = .error (.error ("LLaMA API error: " ++ jsonStringify body)) := by
  refine ⟨?_, ?_, rfl⟩ <;>
    simp only [correctWithOpenAI, correctWithClaude, stubHttp, Bool.not_false,
      if_true, jsOptField_err body h]

/-- C2 amended witness: the three error messages at a concrete error body. -/
theorem adapter_error_messages_prefixed_witness :
    (correctWithOpenAI "t" "k" "m" "p" (.num 0) (.num 1024)
        (stubHttp false (.obj [("error", .obj [("message", .str "bad")])]))).2
      = .error (.error ("OpenAI API error: "
          ++ jsTemplateOpt (errFieldMessage (.obj [("error", .obj [("message", .str "bad")])]))))
  ∧ (correctWithClaude "t" "k" "m" "p" (.num 0) (.num 1024)
        (stubHttp false (.obj [("error", .obj [("message", .str "bad")])]))).2
      = .error (.error ("Claude API error: "
          ++ jsTemplateOpt (errFieldMessage (.obj [("error", .obj [("message", .str "bad")])]))))
  ∧ (correctWithLlama "t" "m" "p" (.num 0) (.num 1024)
        (stubHttp false (.obj [("error", .obj [("message", .str "bad")])]))).2
      = .error (.error ("LLaMA API error: "
          ++ jsonStringify (.obj [("error", .obj [("message", .str "bad")])]))) :=
  adapter_error_messages_prefixed "t" "k" "m" "p" (.num 0) (.num 1024)
    (.obj [("error", .obj [("message", .str "bad")])]) (fun hyp => JValue.noConfusion hyp)

/-! ### C10: unguarded first-element extraction -/

/-- C10: the OpenAI and Claude adapters index the first element of the
`choices` (resp. `content`) array without a guard: on a success status
with an empty array they fail with a generic runtime TypeError, never a
provider `Error`; with a non-empty well-formed array the extraction
succeeds. -/
theorem unguarded_first_element_extraction
    (inputText apiKey model systemPrompt : String) (temperature maxTokens : JsNum) :
    (correctWithOpenAI inputText apiKey model systemPrompt temperature maxTokens
        (stubHttp true (.obj [("choices", .arr [])]))).2
      = .error (.typeError "Cannot read properties of undefined (reading message)")
  ∧ (correctWithClaude inputText apiKey model systemPrompt temperature maxTokens
        (stubHttp true (.obj [("content", .arr [])]))).2
      = .error (.typeError "Cannot read properties of undefined (reading text)")
  ∧ (∀ m, (correctWithOpenAI inputText apiKey model systemPrompt temperature maxTokens
        (stubHttp true (.obj [("choices", .arr [])]))).2 ≠ .error (.error m))
  ∧ (∀ m, (correctWithClaude inputText apiKey model systemPrompt temperature maxTokens
        (stubHttp true (.obj [("content", .arr [])]))).2 ≠ .error (.error m))
  ∧ (∀ s, (correctWithOpenAI inputText apiKey model systemPrompt temperature maxTokens
        (stubHttp true (openaiSuccessBody s))).2 = .ok s.trim)
  ∧ (∀ s, (correctWithClaude inputText apiKey model systemPrompt temperature maxTokens
        (stubHttp true (claudeSuccessBody s))).2 = .ok s.trim) :=
  ⟨rfl, rfl,
   fun _ hyp => JsErr.noConfusion (Except.error.inj hyp),
   fun _ hyp => JsErr.noConfusion (Except.error.inj hyp),
   fun _ => rfl, fun _ => rfl⟩

/-! ### C3: the API-key requirement -/

/-- C3: with provider `openai` or `claude` and a missing or empty API key,
the run fails with the configuration error carrying the provider name and
performs no other effect — in particular no HTTP request is ever sent;
with provider `llama`, configuration resolution succeeds with no API key
at all. -/
theorem api_key_requirement (env : HostEnv) (p : Preferences) :
    (((getPreferenceValues env.store).apiProvider = "openai"
        ∨ (getPreferenceValues env.store).apiProvider = "claude") →
      jsFalsy (getPreferenceValues env.store).apiToken = true →
      main env = [Effect.hud ("Error: API token is required for "
        ++ (getPreferenceValues env.store).apiProvider)]
      ∧ ∀ r, Effect.httpCall r ∉ main env)
  ∧ (p.apiProvider = "llama" → ∃ cfg, resolveConfig p = .ok cfg) := by
  constructor
  · intro h1 h2
    have hc : resolveConfig (getPreferenceValues env.store)
        = .error (.error ("API token is required for "
            ++ (getPreferenceValues env.store).apiProvider)) := by
      unfold resolveConfig
      rw [if_pos ⟨h1, h2⟩]
    have hm : main env = [Effect.hud ("Error: API token is required for "
        ++ (getPreferenceValues env.store).apiProvider)] := by
      unfold main
      rw [hc]
      rfl
    refine ⟨hm, fun r hr => ?_⟩
    rw [hm] at hr
    exact Effect.noConfusion (List.mem_singleton.mp hr)
  · intro hp
    unfold resolveConfig resolveModel
    rw [hp]
    simp

/-! ### C5: model-name resolution -/

/-- The behavior of one provider branch of the model-resolution IIFE:
`mp === "custom" ? cm || d : mp || d`. -/
theorem custom_sentinel_resolution (mp cm : Option String) (d : String) :
    (∀ m, mp = some m → m ≠ "custom" → m ≠ "" →
      (if mp = some "custom" then jsOr cm d else jsOr mp d) = m)
  ∧ (∀ c, mp = some "custom" → cm = some c → c ≠ "" →
      (if mp = some "custom" then jsOr cm d else jsOr mp d) = c)
  ∧ ((jsFalsy mp = true ∨ (mp = some "custom" ∧ jsFalsy cm = true)) →
      (if mp = some "custom" then jsOr cm d else jsOr mp d) = d) := by
  refine ⟨?_, ?_, ?_⟩
  · intro m hm hc hne
    subst hm
    simp [jsOr, hc, hne]
  · intro c hm hcm hc
    subst hm
    subst hcm
    simp [jsOr, hc]
  · rintro (hf | ⟨hm, hf⟩)
    · cases hmp : mp with
      | none => simp [jsOr]
      | some s =>
        rw [hmp] at hf
        have hs : s = "" := by simpa [jsFalsy] using hf
        subst hs
        simp [jsOr]
    · subst hm
      cases hcm : cm with
      | none => simp [jsOr]
      | some s =>
        rw [hcm] at hf
        have hs : s = "" := by simpa [jsFalsy] using hf
        subst hs
        simp [jsOr]

/-- C5: for every provider, the resolved model name is the provider's
model preference when it is a non-empty value other than the sentinel
`custom`; the provider's custom-model preference when the model
preference is `custom` and the custom value is non-empty; and the
hard-coded per-provider default otherwise (model preference falsy, or
`custom` with a falsy custom value). -/
theorem model_name_resolution (p : Preferences) :
    (p.apiProvider = "openai" →
      (∀ m, p.openaiModel = some m → m ≠ "custom" → m ≠ "" → resolveModel p = .ok m)
      ∧ (∀ c, p.openaiModel = some "custom" → p.openaiCustomModel = some c → c ≠ "" →
          resolveModel p = .ok c)
      ∧ ((jsFalsy p.openaiModel = true
            ∨ (p.openaiModel = some "custom" ∧ jsFalsy p.openaiCustomModel = true)) →
          resolveModel p = .ok "gpt-3.5-turbo"))
  ∧ (p.apiProvider = "claude" →
      (∀ m, p.claudeModel = some m → m ≠ "custom" → m ≠ "" → resolveModel p = .ok m)
      ∧ (∀ c, p.claudeModel = some "custom" → p.claudeCustomModel = some c → c ≠ "" →
          resolveModel p = .ok c)
      ∧ ((jsFalsy p.claudeModel = true
            ∨ (p.claudeModel = some "custom" ∧ jsFalsy p.claudeCustomModel = true)) →
          resolveModel p = .ok "claude-3-sonnet-20240229"))
  ∧ (p.apiProvider = "llama" →
      (∀ m, p.llamaModel = some m → m ≠ "custom" → m ≠ "" → resolveModel p = .ok m)
      ∧ (∀ c, p.llamaModel = some "custom" → p.llamaCustomModel = some c → c ≠ "" →
          resolveModel p = .ok c)
      ∧ ((jsFalsy p.llamaModel = true
            ∨ (p.llamaModel = some "custom" ∧ jsFalsy p.llamaCustomModel = true)) →
          resolveModel p = .ok "llama2")) := by
  refine ⟨fun hp => ?_, fun hp => ?_, fun hp => ?_⟩
  · have hr : resolveModel p
        = .ok (if p.openaiModel = some "custom" then jsOr p.openaiCustomModel "gpt-3.5-turbo"
               else jsOr p.openaiModel "gpt-3.5-turbo") := by
      unfold resolveModel
      rw [hp]
      simp
    obtain ⟨h1, h2, h3⟩ := custom_sentinel_resolution p.openaiModel p.openaiCustomModel "gpt-3.5-turbo"
    exact ⟨fun m hm hc hne => by rw [hr, h1 m hm hc hne],
           fun c hm hcm hc => by rw [hr, h2 c hm hcm hc],
           fun hf => by rw [hr, h3 hf]⟩
  · have hr : resolveModel p
        = .ok (if p.claudeModel = some "custom" then jsOr p.claudeCustomModel "claude-3-sonnet-20240229"
               else jsOr p.claudeModel "claude-3-sonnet-20240229") := by
      unfold resolveModel
      rw [hp]
      simp
    obtain ⟨h1, h2, h3⟩ := custom_sentinel_resolution p.claudeModel p.claudeCustomModel
      "claude-3-sonnet-20240229"
    exact ⟨fun m hm hc hne => by rw [hr, h1 m hm hc hne],
           fun c hm hcm hc => by rw [hr, h2 c hm hcm hc],
           fun hf => by rw [hr, h3 hf]⟩
  · have hr : resolveModel p
        = .ok (if p.llamaModel = some "custom" then jsOr p.llamaCustomModel "llama2"
               else jsOr p.llamaModel "llama2") := by
      unfold resolveModel
      rw [hp]
      simp
    obtain ⟨h1, h2, h3⟩ := custom_sentinel_resolution p.llamaModel p.llamaCustomModel "llama2"
    exact ⟨fun m hm hc hne => by rw [hr, h1 m hm hc hne],
           fun c hm hcm hc => by rw [hr, h2 c hm hcm hc],
           fun hf => by rw [hr, h3 hf]⟩

/-! ### C6: dispatch on an unknown provider -/

/-- C6: for every provider string outside `{openai, claude, llama}`,
`correctText` fails with the unsupported-provider error and the effect
trace stays empty: no request is built or sent and no adapter runs. -/
theorem unsupported_provider_dispatch
    (inputText apiKey model apiProvider systemPrompt : String)
    (temperature maxTokens : JsNum) (http : HttpRequest → HttpResponse)
    (h1 : apiProvider ≠ "openai") (h2 : apiProvider ≠ "claude") (h3 : apiProvider ≠ "llama") :
    correctText inputText apiKey model apiProvider systemPrompt temperature maxTokens http
      = ([], .error (.error ("Unsupported API provider: " ++ apiProvider))) := by
  simp [correctText, h1, h2, h3]

/-- C6 witness: dispatch on the provider string `gpt4all`. -/
theorem unsupported_provider_dispatch_witness :
    correctText "teh" "key" "model" "gpt4all" "fix" (.num 0) (.num 1024)
        (stubHttp true (.obj []))
      = ([], .error (.error ("Unsupported API provider: " ++ "gpt4all"))) :=
  unsupported_provider_dispatch "teh" "key" "model" "gpt4all" "fix" (.num 0) (.num 1024)
    (stubHttp true (.obj [])) (by decide) (by decide) (by decide)

/-! ### C7: generation-parameter parsing -/

/-- A preference set whose temperature and max-tokens values are present
but unparsable as numbers. -/
def unparsablePrefs : Preferences where
  apiToken := some "k"
  apiProvider := "openai"
  openaiModel := none
  openaiCustomModel := none
  claudeModel := none
  claudeCustomModel := none
  llamaModel := none
  llamaCustomModel := none
  systemPrompt := some "p"
  temperature := some "abc"
  maxTokens := some "xyz"

/-- C7 counterexample: with `temperature = "abc"` and `maxTokens = "xyz"`
— present but unparsable — configuration resolution does not fail: it
succeeds, silently carrying `NaN` for both parameters. -/
theorem unparsable_parameters_silently_accepted :
    unparsablePrefs.temperature = some "abc"
  ∧ unparsablePrefs.maxTokens = some "xyz"
  ∧ parseFloatJs "abc" = JsNum.nan
  ∧ parseIntJs "xyz" = JsNum.nan
  ∧ resolveConfig unparsablePrefs
      = .ok { apiProvider := "openai", apiKey := some "k", model := "gpt-3.5-turbo",
              systemPrompt := "p", temperature := JsNum.nan, maxTokens := JsNum.nan } :=
  ⟨rfl, rfl, rfl, rfl, rfl⟩

/-- C7 amended: the temperature preference is parsed with `parseFloat`
defaulting to `"0"` when absent or empty, max tokens with `parseInt`
defaulting to `"1024"`; a present unparsable value does not make
resolution fail — the parse silently yields `NaN` and resolution still
succeeds. -/
theorem generation_parameter_parsing (p : Preferences) (cfg : Config)
    (h : resolveConfig p = .ok cfg) :
    (p.temperature = none → cfg.temperature = JsNum.num 0)
  ∧ (p.maxTokens = none → cfg.maxTokens = JsNum.num 1024)
  ∧ (∀ s, p.temperature = some s → s ≠ "" → cfg.temperature = parseFloatJs s)
  ∧ (∀ s, p.maxTokens = some s → s ≠ "" → cfg.maxTokens = parseIntJs s)
  ∧ (∃ cfg2, resolveConfig { p with temperature := some "abc", maxTokens := some "xyz" } = .ok cfg2
      ∧ cfg2.temperature = JsNum.nan ∧ cfg2.maxTokens = JsNum.nan) := by
  have hT : cfg.temperature = parseFloatJs (jsOr p.temperature "0")
      ∧ cfg.maxTokens = parseIntJs (jsOr p.maxTokens "1024") := by
    unfold resolveConfig at h
    by_cases hif : (p.apiProvider = "openai" ∨ p.apiProvider = "claude")
        ∧ jsFalsy p.apiToken = true
    · rw [if_pos hif] at h
      exact absurd h (fun hx => Except.noConfusion hx)
    · rw [if_neg hif] at h
      cases hr : resolveModel p with
      | error e => rw [hr] at h; exact absurd h (fun hx => Except.noConfusion hx)
      | ok model =>
        rw [hr] at h
        have := Except.ok.inj h
        rw [← this]
        exact ⟨rfl, rfl⟩
  refine ⟨?_, ?_, ?_, ?_, ?_⟩
  · intro hn; rw [hT.1, hn]; rfl
  · intro hn; rw [hT.2, hn]; rfl
  · intro s hs hne; rw [hT.1, hs]; simp [jsOr, hne]
  · intro s hs hne; rw [hT.2, hs]; simp [jsOr, hne]
  · unfold resolveConfig at h ⊢
    by_cases hif : (p.apiProvider = "openai" ∨ p.apiProvider = "claude")
        ∧ jsFalsy p.apiToken = true
    · rw [if_pos hif] at h
      exact absurd h (fun hx => Except.noConfusion hx)
    · rw [if_neg hif] at h
      cases hr : resolveModel p with
      | error e => rw [hr] at h; exact absurd h (fun hx => Except.noConfusion hx)
      | ok model =>
        have hr2 : resolveModel { p with temperature := some "abc", maxTokens := some "xyz" }
            = resolveModel p := by
          unfold resolveModel
          rfl
        rw [show ({ p with temperature := some "abc", maxTokens := some "xyz" } : Preferences).apiProvider
              = p.apiProvider from rfl,
            show ({ p with temperature := some "abc", maxTokens := some "xyz" } : Preferences).apiToken
              = p.apiToken from rfl,
            if_neg hif, hr2, hr]
        exact ⟨_, rfl, rfl, rfl⟩

/-- Preferences for the C7 amended witness: no temperature or max-tokens
value set. -/
def defaultParamPrefs : Preferences where
  apiToken := none
  apiProvider := "llama"
  openaiModel := none
  openaiCustomModel := none
  claudeModel := none
  claudeCustomModel := none
  llamaModel := none
  llamaCustomModel := none
  systemPrompt := some "p"
  temperature := none
  maxTokens := none

/-- The configuration `defaultParamPrefs` resolves to. -/
def defaultParamConfig : Config where
  apiProvider := "llama"
  apiKey := none
  model := "llama2"
  systemPrompt := "p"
  temperature := JsNum.num 0
  maxTokens := JsNum.num 1024

/-- C7 amended witness: the parameter-parsing facts at a concrete
preference set with both parameters absent. -/
theorem generation_parameter_parsing_witness :
    (defaultParamPrefs.temperature = none → defaultParamConfig.temperature = JsNum.num 0)
  ∧ (defaultParamPrefs.maxTokens = none → defaultParamConfig.maxTokens = JsNum.num 1024)
  ∧ (∀ s, defaultParamPrefs.temperature = some s → s ≠ ""
      → defaultParamConfig.temperature = parseFloatJs s)
  ∧ (∀ s, defaultParamPrefs.maxTokens = some s → s ≠ ""
      → defaultParamConfig.maxTokens = parseIntJs s)
  ∧ (∃ cfg2, resolveConfig { defaultParamPrefs with
        temperature := some "abc", maxTokens := some "xyz" } = .ok cfg2
      ∧ cfg2.temperature = JsNum.nan ∧ cfg2.maxTokens = JsNum.nan) :=
  generation_parameter_parsing defaultParamPrefs defaultParamConfig rfl

/-! ### C4: the command boundary -/

/-- An effect that is an error notice (the catch block's HUD message). -/
def isErrorNotice : Effect → Bool
  | .hud m => m.startsWith "Error: "
  | _ => false

/-- An effect that writes the clipboard. -/
def isClipboardWrite : Effect → Bool
  | .clipboardPaste _ => true
  | _ => false

/-- The trace of one `correctText` call: empty (unknown provider) or a
single request, sent to one of the three fixed endpoints. -/
theorem correctText_trace_cases (inputText apiKey model apiProvider systemPrompt : String)
    (temperature maxTokens : JsNum) (http : HttpRequest → HttpResponse) :
    (correctText inputText apiKey model apiProvider systemPrompt temperature maxTokens http).1 = []
  ∨ ∃ r, (correctText inputText apiKey model apiProvider systemPrompt temperature maxTokens http).1
        = [Effect.httpCall r]
      ∧ (r.url = API_URLS.openai ∨ r.url = API_URLS.claude ∨ r.url = API_URLS.llama) := by
  unfold correctText
  by_cases h1 : apiProvider = "openai"
  · rw [if_pos h1]
    exact .inr ⟨_, rfl, .inl rfl⟩
  · rw [if_neg h1]
    by_cases h2 : apiProvider = "claude"
    · rw [if_pos h2]
      exact .inr ⟨_, rfl, .inr (.inl rfl)⟩
    · rw [if_neg h2]
      by_cases h3 : apiProvider = "llama"
      · rw [if_pos h3]
        exact .inr ⟨_, rfl, .inr (.inr rfl)⟩
      · rw [if_neg h3]
        exact .inl rfl

/-- `main` on a configuration-resolution failure: one error notice. -/
theorem main_eq_resolveErr (env : HostEnv) (e : JsErr)
    (h : resolveConfig (getPreferenceValues env.store) = .error e) :
    main env = [Effect.hud ("Error: " ++ e.message)] := by
  unfold main
  rw [h]

/-- `main` on a selection failure: one error notice. -/
theorem main_eq_selectionErr (env : HostEnv) (cfg : Config) (e : JsErr)
    (hc : resolveConfig (getPreferenceValues env.store) = .ok cfg)
    (hs : env.selection = .error e) :
    main env = [Effect.hud ("Error: " ++ e.message)] := by
  unfold main
  rw [hc, hs]

/-- `main` once resolution and selection succeed: the working notice,
the dispatched call's trace, then the failure notice or the paste and
success notice. -/
theorem main_eq_call (env : HostEnv) (cfg : Config) (sel : String)
    (hc : resolveConfig (getPreferenceValues env.store) = .ok cfg)
    (hs : env.selection = .ok sel) :
    main env = (match correctText sel (jsOr cfg.apiKey "") cfg.model cfg.apiProvider
        cfg.systemPrompt cfg.temperature cfg.maxTokens env.http with
      | (effs, .error e) => Effect.hud workingNotice :: effs ++ [Effect.hud ("Error: " ++ e.message)]
      | (effs, .ok t) =>
        Effect.hud workingNotice :: effs ++ [Effect.clipboardPaste t, Effect.hud successNotice]) := by
  unfold main
  rw [hc, hs]

/-- C4: for every run, every failure — in configuration resolution,
selection acquisition, dispatch or the provider call — surfaces as
exactly one final error notice, with nothing written to the clipboard
before or after it; otherwise the run succeeds and the clipboard write
carries exactly the adapter's successful result, with no error notice
anywhere.  `main` is a total function into an effect list, so no
exception propagates past the command boundary. -/
theorem command_boundary_error_handling (env : HostEnv) :
    (∃ pre e, main env = pre ++ [Effect.hud ("Error: " ++ JsErr.message e)]
      ∧ pre.countP isErrorNotice = 0 ∧ pre.countP isClipboardWrite = 0)
  ∨ (∃ sel cfg t,
        env.selection = .ok sel
      ∧ resolveConfig (getPreferenceValues env.store) = .ok cfg
      ∧ (correctText sel (jsOr cfg.apiKey "") cfg.model cfg.apiProvider cfg.systemPrompt
          cfg.temperature cfg.maxTokens env.http).2 = .ok t
      ∧ main env = Effect.hud workingNotice
          :: (correctText sel (jsOr cfg.apiKey "") cfg.model cfg.apiProvider cfg.systemPrompt
              cfg.temperature cfg.maxTokens env.http).1
          ++ [Effect.clipboardPaste t, Effect.hud successNotice]
      ∧ (main env).countP isErrorNotice = 0) := by
  cases hc : resolveConfig (getPreferenceValues env.store) with
  | error e =>
    exact .inl ⟨[], e, main_eq_resolveErr env e hc, rfl, rfl⟩
  | ok cfg =>
    cases hs : env.selection with
    | error e =>
      exact .inl ⟨[], e, main_eq_selectionErr env cfg e hc hs, rfl, rfl⟩
    | ok sel =>
      have hbase := main_eq_call env cfg sel hc hs
      have htr := correctText_trace_cases sel (jsOr cfg.apiKey "") cfg.model cfg.apiProvider
        cfg.systemPrompt cfg.temperature cfg.maxTokens env.http
      cases hcall : correctText sel (jsOr cfg.apiKey "") cfg.model cfg.apiProvider
          cfg.systemPrompt cfg.temperature cfg.maxTokens env.http with
      | mk effs res =>
        rw [hcall] at hbase htr
        have heffs : effs = [] ∨ ∃ r, effs = [Effect.httpCall r] := by
          rcases htr with h | ⟨r, h, _⟩
          · exact .inl h
          · exact .inr ⟨r, h⟩
        cases res with
        | error e =>
          have hm : main env = (Effect.hud workingNotice :: effs)
              ++ [Effect.hud ("Error: " ++ JsErr.message e)] := by
            rw [hbase]
          refine .inl ⟨Effect.hud workingNotice :: effs, e, hm, ?_, ?_⟩ <;>
            (rcases heffs with h | ⟨r, h⟩ <;> subst h <;> rfl)
        | ok t =>
          have hm : main env = Effect.hud workingNotice
              :: effs ++ [Effect.clipboardPaste t, Effect.hud successNotice] := by
            rw [hbase]
          refine .inr ⟨sel, cfg, t, rfl, rfl, ?_, ?_, ?_⟩
          · rw [hcall]
          · rw [hcall]
            exact hm
          · rw [hm]
            rcases heffs with h | ⟨r, h⟩ <;> subst h <;> rfl

/-! ### C9: endpoint URLs -/

/-- A preference store that supplies an explicit endpoint override next
to a valid OpenAI configuration.  The `Preferences` interface declares
no endpoint field, so the override key is never read. -/
def overrideStore : Store :=
  [("apiProvider", "openai"), ("apiToken", "sk-test"), ("systemPrompt", "p"),
   ("openaiEndpoint", "http://localhost:9999/v1/chat/completions")]

/-- An environment around `overrideStore` with a stubbed success response. -/
def overrideEnv : HostEnv where
  store := overrideStore
  selection := .ok "teh text"
  http := stubHttp true (openaiSuccessBody "the text")

/-- C9 counterexample: with an explicit endpoint override supplied in
the preference store, the run still sends its one request to the fixed
default OpenAI URL and none to the override — no endpoint is
overridable. -/
theorem endpoint_override_preference_ignored :
    getPref overrideStore "openaiEndpoint" = some "http://localhost:9999/v1/chat/completions"
  ∧ (main overrideEnv).countP
      (fun e => match e with
        | Effect.httpCall r => r.url == "http://localhost:9999/v1/chat/completions"
        | _ => false) = 0
  ∧ (main overrideEnv).countP
      (fun e => match e with
        | Effect.httpCall r => r.url == "https://api.openai.com/v1/chat/completions"
        | _ => false) = 1 :=
  ⟨rfl, rfl, rfl⟩

/-- Every request `correctText` sends goes to one of the three fixed
default endpoint URLs. -/
theorem correctText_call_urls (inputText apiKey model apiProvider systemPrompt : String)
    (temperature maxTokens : JsNum) (http : HttpRequest → HttpResponse) (r : HttpRequest)
    (h : Effect.httpCall r
      ∈ (correctText inputText apiKey model apiProvider systemPrompt temperature maxTokens http).1) :
    r.url = API_URLS.openai ∨ r.url = API_URLS.claude ∨ r.url = API_URLS.llama := by
  rcases correctText_trace_cases inputText apiKey model apiProvider systemPrompt
      temperature maxTokens http with hsh | ⟨r0, hsh, hurl⟩
  · rw [hsh] at h
    exact absurd h (List.not_mem_nil _)
  · rw [hsh] at h
    have heq : Effect.httpCall r = Effect.httpCall r0 := List.mem_singleton.mp h
    rw [Effect.httpCall.inj heq]
    exact hurl

/-- C9 amended: the endpoint URL of every request a run sends is the
fixed per-provider default (`https://api.openai.com/v1/chat/completions`,
`https://api.anthropic.com/v1/messages`,
`http://localhost:11434/api/generate`); the preferences expose no
endpoint override, so no other URL is reachable. -/
theorem requests_use_fixed_default_endpoints (env : HostEnv) (r : HttpRequest)
    (h : Effect.httpCall r ∈ main env) :
    (r.url = API_URLS.openai ∨ r.url = API_URLS.claude ∨ r.url = API_URLS.llama)
  ∧ API_URLS.openai = "https://api.openai.com/v1/chat/completions"
  ∧ API_URLS.claude = "https://api.anthropic.com/v1/messages"
  ∧ API_URLS.llama = "http://localhost:11434/api/generate" := by
  refine ⟨?_, rfl, rfl, rfl⟩
  cases hc : resolveConfig (getPreferenceValues env.store) with
  | error e =>
    rw [main_eq_resolveErr env e hc] at h
    exact absurd (List.mem_singleton.mp h) (fun hx => Effect.noConfusion hx)
  | ok cfg =>
    cases hs : env.selection with
    | error e =>
      rw [main_eq_selectionErr env cfg e hc hs] at h
      exact absurd (List.mem_singleton.mp h) (fun hx => Effect.noConfusion hx)
    | ok sel =>
      rw [main_eq_call env cfg sel hc hs] at h
      cases hcall : correctText sel (jsOr cfg.apiKey "") cfg.model cfg.apiProvider
          cfg.systemPrompt cfg.temperature cfg.maxTokens env.http with
      | mk effs res =>
        have hmem : Effect.httpCall r ∈ effs := by
          rw [hcall] at h
          cases res with
          | error e =>
            rcases List.mem_cons.mp h with hx | hx
            · exact absurd hx (fun hy => Effect.noConfusion hy)
            · rcases List.mem_append.mp hx with hy | hy
              · exact hy
              · exact absurd (List.mem_singleton.mp hy) (fun hz => Effect.noConfusion hz)
          | ok t =>
            rcases List.mem_cons.mp h with hx | hx
            · exact absurd hx (fun hy => Effect.noConfusion hy)
            · rcases List.mem_append.mp hx with hy | hy
              · exact hy
              · rcases List.mem_cons.mp hy with hz | hz
                · exact absurd hz (fun hw => Effect.noConfusion hw)
                · exact absurd (List.mem_singleton.mp hz) (fun hw => Effect.noConfusion hw)
        refine correctText_call_urls sel (jsOr cfg.apiKey "") cfg.model cfg.apiProvider
          cfg.systemPrompt cfg.temperature cfg.maxTokens env.http r ?_
        rw [hcall]
        exact hmem

/-- An environment whose run sends one request to the LLaMA endpoint. -/
def llamaEnv : HostEnv where
  store := [("apiProvider", "llama"), ("systemPrompt", "p")]
  selection := .ok "x"
  http := stubHttp true (llamaSuccessBody "y")

/-- C9 amended witness: the request `llamaEnv`'s run sends goes to one
of the three fixed defaults, and the defaults are the documented URLs. -/
theorem requests_use_fixed_default_endpoints_witness :
    ((llamaRequest "x" "llama2" "p" (parseFloatJs "0") (parseIntJs "1024")).url = API_URLS.openai
      ∨ (llamaRequest "x" "llama2" "p" (parseFloatJs "0") (parseIntJs "1024")).url = API_URLS.claude
      ∨ (llamaRequest "x" "llama2" "p" (parseFloatJs "0") (parseIntJs "1024")).url = API_URLS.llama)
  ∧ API_URLS.openai = "https://api.openai.com/v1/chat/completions"
  ∧ API_URLS.claude = "https://api.anthropic.com/v1/messages"
  ∧ API_URLS.llama = "http://localhost:11434/api/generate" :=
  requests_use_fixed_default_endpoints llamaEnv
    (llamaRequest "x" "llama2" "p" (parseFloatJs "0") (parseIntJs "1024"))
    (List.Mem.tail _ (List.Mem.head _))

/-! ### C8: input text is passed unmodified -/

/-- The value of a top-level field of a JSON object body. -/
def bodyField (v : JValue) (k : String) : Option JValue :=
  match v with
  | .obj fs => lookupField fs k
  | _ => none

/-- C8: every provider receives the input text verbatim — the sole user
message's content for OpenAI and Claude, and the suffix of the `prompt`
field after the system prompt and a blank line for LLaMA; no
transformation, truncation or chunking happens client-side. -/
theorem input_text_passed_verbatim (inputText apiKey model systemPrompt : String)
    (temperature maxTokens : JsNum) :
    bodyField (openaiRequest inputText apiKey model systemPrompt temperature maxTokens).body
        "messages"
      = some (.arr [.obj [("role", .str "system"), ("content", .str systemPrompt)],
                    .obj [("role", .str "user"), ("content", .str inputText)]])
  ∧ bodyField (claudeRequest inputText apiKey model systemPrompt temperature maxTokens).body
        "messages"
      = some (.arr [.obj [("role", .str "user"), ("content", .str inputText)]])
  ∧ bodyField (llamaRequest inputText model systemPrompt temperature maxTokens).body "prompt"
      = some (.str (systemPrompt ++ "\n\n" ++ inputText)) :=
  ⟨rfl, rfl, rfl⟩

end LlmSpellCorrection
